import Mathlib

/-
Verification of the certificate-field verification core of
springpython/remoting/xmlrpc.py (class SSLServer).

The embedding models, line by line:
  * SSLServer.verify_peer     (xmlrpc.py lines 113-143)
  * SSLServer.verify_request  (xmlrpc.py lines 78-111)
Python dicts appearing here (the peer certificate, its subject, and the
configured `verify_fields` policy) are modelled as association lists with
Python's insertion-order/overwrite semantics; Python's truthiness tests
(`if not cert`, `if not subject`, `if not cert_value`, `if self.verify_fields`)
are modelled explicitly; exceptions are modelled with `Except`; the side
effects of `verify_request` (logging, closing the socket) are modelled as
data in the returned `VRResult`.
-/

set_option autoImplicit false

namespace SpringPython

/-- Peer certificate as returned by `sock.getpeercert()`: a Python dict of
which `verify_peer` only reads the key `"subject"` (xmlrpc.py line 121).
The subject, when present, is a sequence of RDNs, each RDN a sequence of
(name, value) pairs. `subject = none` models a dict without the key
(`cert.get("subject")` returns `None`). -/
structure Cert where
  subject : Option (List (List (String × String)))
deriving DecidableEq

/-- Wrapped SSL socket, reduced to the only data `verify_request` reads from
it: the result of `getpeercert()`. `peercert = none` models a falsy result
(`None` or the empty dict `{}`), which is what `if not cert` at line 86
tests for. -/
structure Sock where
  peercert : Option Cert
deriving DecidableEq

/-- Model of `ssl.SSLSocket.getpeercert()`: after a completed handshake it is
a pure accessor of the session's peer certificate. -/
def Sock.getpeercert (s : Sock) : Option Cert :=
  s.peercert

/-- Rejection reasons built by `verify_peer`. Each constructor carries exactly
the data interpolated into the corresponding Python format string:
  * `missingField` — line 134: "Peer didn't send the '%s' field, subject
    fields received '%s'" % (verify_field, subject)
  * `mismatch` — line 139: "Expected the subject field '%s' to have value
    '%s' instead of '%s'" % (verify_field, expected_value, subject)
    (note: the source interpolates the whole `subject` dict, which contains
    the received value at key `verify_field`, not the bare received value). -/
inductive Reason where
  | missingField (verify_field : String) (subject : List (String × String))
  | mismatch (verify_field : String) (expected_value : String)
      (subject : List (String × String))
deriving DecidableEq

/-- Exceptions that can be raised inside the `try` block of `verify_request`:
  * `verificationNoCert` — the `VerificationException` raised at lines 87-88
    with message "Couldn't verify fields, peer didn't send the certificate,
    from_addr='%s'" % (from_addr,);
  * `verificationNoSubject` — the `VerificationException` raised at lines
    122-124 ("Peer certificate doesn't have the 'subject' field, ...");
  * `indexError` — `elem[0]` at line 126 applied to an empty RDN;
  * `typeError` — iterating `self.verify_fields` at line 128 when it is
    `None`. -/
inductive PyExc where
  | verificationNoCert (from_addr : String)
  | verificationNoSubject (cert : Cert)
  | indexError
  | typeError
deriving DecidableEq

/-- Log records emitted by `verify_peer` and `verify_request`, carrying the
data interpolated into the corresponding logging calls:
  * `debugPeerCert` — line 119, `self.logger.debug("verify_peer cert=...")`;
  * `errorReason` — line 92, `self.logger.error(reason)`;
  * `errorVerification` — lines 104-106, the error log built in the `except`
    handler from the exception, `sock.getpeercert()` and `from_addr`. -/
inductive LogEvent where
  | debugPeerCert (cert : Cert)
  | errorReason (reason : Option Reason)
  | errorVerification (e : PyExc) (cert : Option Cert) (from_addr : String)
deriving DecidableEq

/-- The state of an `SSLServer` that `verify_request`/`verify_peer` read:
the `verify_fields` policy taken from kwargs at line 54 (`none` models the
kwarg being absent, i.e. Python `None`; `some` models a dict, given as an
association list in iteration order), and whether the logger has the DEBUG
level enabled (`self.logger.isEnabledFor(logging.DEBUG)`, line 118). -/
structure SSLServer where
  verify_fields : Option (List (String × String))
  debugEnabled : Bool
deriving DecidableEq

/-- Python truthiness of `cert_value = subject.get(verify_field, None)`:
falsy iff `None` or the empty string (line 133, `if not cert_value`). -/
def pyFalsy : Option String → Bool
  | none => true
  | some s => s == ""

/-- Python truthiness of `self.verify_fields` (line 83): truthy iff it is a
non-empty dict. -/
def pyTruthyFields : Option (List (String × String)) → Bool
  | none => false
  | some l => !l.isEmpty

/-- Python dict lookup `d.get(k, None)` on an association list whose keys are
unique (as maintained by `dictInsert`). -/
def dictGet (d : List (String × String)) (k : String) : Option String :=
  (d.find? (fun p => p.1 == k)).map (fun p => p.2)

/-- Python dict insertion `d[k] = v`: overwrites in place if the key exists,
otherwise appends. -/
def dictInsert (d : List (String × String)) (k v : String) :
    List (String × String) :=
  if d.any (fun p => p.1 == k) then
    d.map (fun p => if p.1 == k then (k, v) else p)
  else
    d ++ [(k, v)]

/-- Line 126: `subject = dict(elem[0] for elem in subject)`. Takes the first
pair of each RDN and builds a dict from them; an empty RDN makes `elem[0]`
raise `IndexError`, modelled as `none`. -/
def buildSubject (acc : List (String × String)) :
    List (List (String × String)) → Option (List (String × String))
  | [] => some acc
  | [] :: _ => none
  | (pair :: _) :: rest => buildSubject (dictInsert acc pair.1 pair.2) rest

/-- The loop of `verify_peer`, lines 128-143: for each policy entry
`(verify_field, expected_value)` in iteration order, look up
`cert_value = subject.get(verify_field, None)`; a falsy value rejects with
the missing-field reason (lines 133-136); a differing value rejects with the
mismatch reason (lines 138-141); otherwise continue; if the loop finishes,
return `(True, None)` (line 143). -/
def verify_fields_loop (subject : List (String × String)) :
    List (String × String) → Bool × Option Reason
  | [] => (true, none)
  | (verify_field, expected_value) :: rest =>
    let cert_value := dictGet subject verify_field
    if pyFalsy cert_value then
      (false, some (Reason.missingField verify_field subject))
    else if some expected_value ≠ cert_value then
      (false, some (Reason.mismatch verify_field expected_value subject))
    else
      verify_fields_loop subject rest

/-- The result component of `verify_peer` (lines 121-143): check the
`"subject"` key (falsy — absent or an empty sequence — raises
`VerificationException`, lines 122-124), build the subject dict (line 126,
may raise `IndexError`), then run the field loop over `self.verify_fields`
(iterating `None` would raise `TypeError`). -/
def SSLServer.verify_peer_result (srv : SSLServer) (cert : Cert) :
    Except PyExc (Bool × Option Reason) :=
  match cert.subject with
  | none => Except.error (PyExc.verificationNoSubject cert)
  | some subj =>
    if subj.isEmpty then
      Except.error (PyExc.verificationNoSubject cert)
    else
      match buildSubject [] subj with
      | none => Except.error PyExc.indexError
      | some subject =>
        match srv.verify_fields with
        | none => Except.error PyExc.typeError
        | some vf => Except.ok (verify_fields_loop subject vf)

/-- Full model of `verify_peer` (lines 113-143): first the conditional debug
log of the certificate (lines 118-119), then the pure result. -/
def SSLServer.verify_peer (srv : SSLServer) (cert : Cert) :
    List LogEvent × Except PyExc (Bool × Option Reason) :=
  ((if srv.debugEnabled then [LogEvent.debugPeerCert cert] else []),
   srv.verify_peer_result cert)

/-- The `try` block of `verify_request` (lines 82-94 plus the fall-through
`return True` at line 111): returns the log records emitted so far paired
with either a raised exception or `(return value, socket closed?)`. If
`self.verify_fields` is falsy the whole block is skipped and the function
returns `True` (lines 83, 111). Otherwise a falsy `getpeercert()` raises
(lines 85-88); a rejection by `verify_peer` logs the reason, closes the
socket and returns `False` (lines 90-94); acceptance returns `True`. -/
def SSLServer.verify_request_try (srv : SSLServer) (sock : Sock)
    (from_addr : String) : List LogEvent × Except PyExc (Bool × Bool) :=
  if pyTruthyFields srv.verify_fields then
    match sock.getpeercert with
    | none => ([], Except.error (PyExc.verificationNoCert from_addr))
    | some cert =>
      match srv.verify_peer cert with
      | (logs, Except.error e) => (logs, Except.error e)
      | (logs, Except.ok (allow_peer, reason)) =>
        if !allow_peer then
          (logs ++ [LogEvent.errorReason reason], Except.ok (false, true))
        else
          (logs, Except.ok (true, false))
  else
    ([], Except.ok (true, false))

/-- Observable outcome of one `verify_request` call: its return value,
whether it closed the socket, and what it logged. -/
structure VRResult where
  ret : Bool
  sockClosed : Bool
  logged : List LogEvent
deriving DecidableEq

/-- Full model of `verify_request` (lines 78-111): run the `try` block; the
`except Exception` handler (lines 96-109) logs an error built from the
exception, `sock.getpeercert()` and `from_addr`, closes the socket and
returns `False`. No exception escapes: the function is total. -/
def SSLServer.verify_request (srv : SSLServer) (sock : Sock)
    (from_addr : String) : VRResult :=
  match srv.verify_request_try sock from_addr with
  | (logs, Except.ok (r, closed)) => ⟨r, closed, logs⟩
  | (logs, Except.error e) =>
    ⟨false, true,
     logs ++ [LogEvent.errorVerification e sock.getpeercert from_addr]⟩

/-- A sequence of consecutive connection attempts against the same server:
each attempt is verified independently by `verify_request`. -/
def processAttempts (srv : SSLServer) (attempts : List (Sock × String)) :
    List VRResult :=
  attempts.map (fun p => srv.verify_request p.1 p.2)

/-- A policy entry `(field, expected)` passes against a subject dict when the
field is present with a truthy (non-empty) value equal to the expected one —
exactly the condition under which the loop body at lines 128-141 falls
through to the next field. -/
def fieldPasses (subject : List (String × String)) (p : String × String) :
    Prop :=
  dictGet subject p.1 = some p.2 ∧ p.2 ≠ ""

/-- The certificate field a rejection reason names. -/
def reasonField : Reason → String
  | Reason.missingField f _ => f
  | Reason.mismatch f _ _ => f

instance instDecidableFieldPasses (subject : List (String × String))
    (p : String × String) : Decidable (fieldPasses subject p) :=
  inferInstanceAs (Decidable (dictGet subject p.1 = some p.2 ∧ p.2 ≠ ""))

/-! Helper lemmas shared by the claim theorems. -/

/-- A prefix of policy entries that all pass is skipped by the loop. -/
theorem verify_fields_loop_skip (subject : List (String × String))
    (P1 rest : List (String × String))
    (h : ∀ p ∈ P1, fieldPasses subject p) :
    verify_fields_loop subject (P1 ++ rest) = verify_fields_loop subject rest := by
  induction P1 with
  | nil => rfl
  | cons q P1 ih =>
    obtain ⟨hget, hne⟩ := h q (List.mem_cons_self q P1)
    have hrest : ∀ p ∈ P1, fieldPasses subject p :=
      fun p hp => h p (List.mem_cons_of_mem q hp)
    cases q with
    | mk f e =>
      have hfalsy : pyFalsy (some e) = false := by
        simpa [pyFalsy] using hne
      simp only [List.cons_append, verify_fields_loop, hget, hfalsy,
        Bool.false_eq_true, if_false, ne_eq, not_true_eq_false]
      exact ih hrest

/-- The `(Bool × Bool)` pairs the `try` block can return: either accept
without closing, or reject after closing. -/
theorem verify_request_try_ok_cases (srv : SSLServer) (sock : Sock)
    (from_addr : String) (logs : List LogEvent) (r c : Bool)
    (h : srv.verify_request_try sock from_addr = (logs, Except.ok (r, c))) :
    (r = true ∧ c = false) ∨ (r = false ∧ c = true) := by
  unfold SSLServer.verify_request_try at h
  split at h
  · split at h
    · simp at h
    · split at h
      · simp at h
      · split at h
        · simp only [Prod.mk.injEq, Except.ok.injEq] at h
          exact Or.inr ⟨h.2.1.symm, h.2.2.symm⟩
        · simp only [Prod.mk.injEq, Except.ok.injEq] at h
          exact Or.inl ⟨h.2.1.symm, h.2.2.symm⟩
  · simp only [Prod.mk.injEq, Except.ok.injEq] at h
    exact Or.inl ⟨h.2.1.symm, h.2.2.symm⟩

/-- Under a well-formed certificate (a non-empty subject whose RDNs are all
non-empty) and a configured policy dict, `verify_peer_result` reduces to the
field loop over the built subject dict. -/
theorem verify_peer_result_loop (srv : SSLServer) (cert : Cert)
    (raw : List (List (String × String))) (subject vf : List (String × String))
    (hs : cert.subject = some raw) (hraw : raw ≠ [])
    (hb : buildSubject [] raw = some subject)
    (hvf : srv.verify_fields = some vf) :
    srv.verify_peer_result cert = Except.ok (verify_fields_loop subject vf) := by
  have hie : raw.isEmpty = false := by
    cases raw with
    | nil => exact absurd rfl hraw
    | cons a t => rfl
  simp only [SSLServer.verify_peer_result, hs, hie, Bool.false_eq_true,
    if_false, hb, hvf]

/-! Claim theorems. -/

/-- C1: whatever exception the `try` block of `verify_request` raises — a
missing peer certificate, a malformed certificate structure, or any other
failure while evaluating the policy — `verify_request` treats it as a
rejection: it logs the error (the handler record built from the exception,
the peer certificate and the peer address), closes the socket and returns
`False`; no exception propagates out of `verify_request`, which is a total
function into `VRResult`. -/
theorem C1_exception_handled_as_rejection (srv : SSLServer) (sock : Sock)
    (from_addr : String) (logs : List LogEvent) (e : PyExc)
    (h : srv.verify_request_try sock from_addr = (logs, Except.error e)) :
    srv.verify_request sock from_addr =
      ⟨false, true,
       logs ++ [LogEvent.errorVerification e sock.getpeercert from_addr]⟩ := by
  unfold SSLServer.verify_request
  rw [h]

/-- C1 witness: a peer certificate without a `"subject"` key (a malformed
certificate structure) raises inside the `try` block, and `verify_request`
logs, closes the socket and returns `False`. -/
theorem C1_exception_handled_as_rejection_witness :
    (SSLServer.mk (some [("O", "Acme")]) false).verify_request
        (Sock.mk (some (Cert.mk none))) "peer1" =
      ⟨false, true,
       [LogEvent.errorVerification (PyExc.verificationNoSubject (Cert.mk none))
          (some (Cert.mk none)) "peer1"]⟩ :=
  C1_exception_handled_as_rejection (SSLServer.mk (some [("O", "Acme")]) false)
    (Sock.mk (some (Cert.mk none))) "peer1" []
    (PyExc.verificationNoSubject (Cert.mk none)) rfl

/-- C2: with an empty or absent `verify_fields` policy, `verify_request`
returns `True`, closes nothing and logs nothing, and its outcome does not
depend on the socket at all — in particular the peer certificate is never
retrieved or inspected, for every peer field mapping including an absent
one. -/
theorem C2_empty_policy_accepts (srv : SSLServer) (sock sock2 : Sock)
    (from_addr : String)
    (h : srv.verify_fields = none ∨ srv.verify_fields = some []) :
    srv.verify_request sock from_addr = ⟨true, false, []⟩ ∧
    srv.verify_request sock from_addr = srv.verify_request sock2 from_addr := by
  have ht : pyTruthyFields srv.verify_fields = false := by
    rcases h with h | h <;> rw [h] <;> rfl
  constructor <;>
    simp [SSLServer.verify_request, SSLServer.verify_request_try, ht]

/-- C2 witness: a server whose `verify_fields` kwarg is absent accepts a peer
that presented no certificate, and the outcome equals the one for a peer
that presented a certificate. -/
theorem C2_empty_policy_accepts_witness :
    (SSLServer.mk none false).verify_request (Sock.mk none) "peer1" =
      ⟨true, false, []⟩ ∧
    (SSLServer.mk none false).verify_request (Sock.mk none) "peer1" =
      (SSLServer.mk none false).verify_request
        (Sock.mk (some (Cert.mk (some [[("O", "Acme")]])))) "peer1" :=
  C2_empty_policy_accepts (SSLServer.mk none false) (Sock.mk none)
    (Sock.mk (some (Cert.mk (some [[("O", "Acme")]])))) "peer1" (Or.inl rfl)

/-- C3: with a non-empty policy, a peer whose `getpeercert()` is falsy (no
certificate presented) is rejected: `verify_request` closes the socket,
returns `False`, and logs the handler record carrying
`PyExc.verificationNoCert from_addr` — the `VerificationException` raised at
lines 87-88 with the message "Couldn't verify fields, peer didn't send the
certificate, from_addr='%s'". -/
theorem C3_no_certificate_rejected (srv : SSLServer) (sock : Sock)
    (from_addr : String) (P : List (String × String))
    (hP : srv.verify_fields = some P) (hne : P ≠ [])
    (hc : sock.getpeercert = none) :
    srv.verify_request sock from_addr =
      ⟨false, true,
       [LogEvent.errorVerification (PyExc.verificationNoCert from_addr)
          none from_addr]⟩ := by
  have ht : pyTruthyFields srv.verify_fields = true := by
    rw [hP]
    cases P with
    | nil => exact absurd rfl hne
    | cons a t => rfl
  simp [SSLServer.verify_request, SSLServer.verify_request_try, ht, hc]

/-- C3 witness: a server requiring `O = Acme` rejects a peer that presented
no certificate, closing the socket and logging the no-certificate error. -/
theorem C3_no_certificate_rejected_witness :
    (SSLServer.mk (some [("O", "Acme")]) false).verify_request
        (Sock.mk none) "peer1" =
      ⟨false, true,
       [LogEvent.errorVerification (PyExc.verificationNoCert "peer1")
          none "peer1"]⟩ :=
  C3_no_certificate_rejected (SSLServer.mk (some [("O", "Acme")]) false)
    (Sock.mk none) "peer1" [("O", "Acme")] rfl (by decide) rfl

/-- C4: if a policy field `k` is absent from the peer's subject mapping (and
it is the first field the loop fails on — every earlier policy field
passes), `verify_peer` returns rejected with the missing-field reason, which
names `k` and carries the full subject mapping that was received (the data
interpolated into "Peer didn't send the '%s' field, subject fields received
'%s'"). -/
theorem C4_missing_field_rejected (srv : SSLServer) (cert : Cert)
    (raw : List (List (String × String)))
    (subject P1 P2 : List (String × String)) (k e : String)
    (hs : cert.subject = some raw) (hraw : raw ≠ [])
    (hb : buildSubject [] raw = some subject)
    (hvf : srv.verify_fields = some (P1 ++ (k, e) :: P2))
    (hpass : ∀ p ∈ P1, fieldPasses subject p)
    (hmiss : dictGet subject k = none) :
    (srv.verify_peer cert).2 =
      Except.ok (false, some (Reason.missingField k subject)) := by
  have h2 : (srv.verify_peer cert).2 = srv.verify_peer_result cert := rfl
  rw [h2, verify_peer_result_loop srv cert raw subject _ hs hraw hb hvf,
      verify_fields_loop_skip subject P1 ((k, e) :: P2) hpass]
  simp [verify_fields_loop, hmiss, pyFalsy]

/-- C4 witness: the spec's example — policy `{"O": "Acme"}`, peer subject
`{"CN": "host"}` — is rejected with a reason naming the missing field `"O"`
and the received subject fields. -/
theorem C4_missing_field_rejected_witness :
    ((SSLServer.mk (some [("O", "Acme")]) false).verify_peer
        (Cert.mk (some [[("CN", "host")]]))).2 =
      Except.ok (false, some (Reason.missingField "O" [("CN", "host")])) :=
  C4_missing_field_rejected (SSLServer.mk (some [("O", "Acme")]) false)
    (Cert.mk (some [[("CN", "host")]])) [[("CN", "host")]] [("CN", "host")]
    [] [] "O" "Acme" rfl (by decide) rfl rfl
    (fun p hp => absurd hp (List.not_mem_nil p)) (by decide)

/-- C5: if a policy field `k` is present in the subject mapping with a
non-empty value `v` differing from the expected value `e` (and every earlier
policy field passes), `verify_peer` returns rejected with the mismatch
reason, which names the field `k`, the expected value `e`, and carries the
received subject mapping, in which the received value is the entry at `k` —
the data interpolated into "Expected the subject field '%s' to have value
'%s' instead of '%s'". -/
theorem C5_value_mismatch_rejected (srv : SSLServer) (cert : Cert)
    (raw : List (List (String × String)))
    (subject P1 P2 : List (String × String)) (k e v : String)
    (hs : cert.subject = some raw) (hraw : raw ≠ [])
    (hb : buildSubject [] raw = some subject)
    (hvf : srv.verify_fields = some (P1 ++ (k, e) :: P2))
    (hpass : ∀ p ∈ P1, fieldPasses subject p)
    (hv : dictGet subject k = some v) (hvne : v ≠ "") (hne : e ≠ v) :
    (srv.verify_peer cert).2 =
      Except.ok (false, some (Reason.mismatch k e subject)) ∧
    dictGet subject k = some v := by
  refine ⟨?_, hv⟩
  have h2 : (srv.verify_peer cert).2 = srv.verify_peer_result cert := rfl
  rw [h2, verify_peer_result_loop srv cert raw subject _ hs hraw hb hvf,
      verify_fields_loop_skip subject P1 ((k, e) :: P2) hpass]
  have hfalsy : pyFalsy (some v) = false := by
    simpa [pyFalsy] using hvne
  simp [verify_fields_loop, hv, hfalsy, hne]

/-- C5 witness: the spec's example — policy `{"O": "Acme"}`, peer subject
`{"O": "Other"}` — is rejected with a mismatch reason naming `"O"`, the
expected `"Acme"` and the received subject, whose entry at `"O"` is
`"Other"`. -/
theorem C5_value_mismatch_rejected_witness :
    ((SSLServer.mk (some [("O", "Acme")]) false).verify_peer
        (Cert.mk (some [[("O", "Other")]]))).2 =
      Except.ok (false, some (Reason.mismatch "O" "Acme" [("O", "Other")])) ∧
    dictGet [("O", "Other")] "O" = some "Other" :=
  C5_value_mismatch_rejected (SSLServer.mk (some [("O", "Acme")]) false)
    (Cert.mk (some [[("O", "Other")]])) [[("O", "Other")]] [("O", "Other")]
    [] [] "O" "Acme" "Other" rfl (by decide) rfl rfl
    (fun p hp => absurd hp (List.not_mem_nil p)) (by decide) (by decide)
    (by decide)

/-- C10: a policy field `k` that is present in the subject mapping but with a
falsy (empty-string) value is rejected through the missing-field branch —
`if not cert_value` at line 133 is a truthiness test, not a presence test —
so the reason says the peer did not send field `k`, not that its value
mismatched (assuming every earlier policy field passes). -/
theorem C10_falsy_value_takes_missing_branch (srv : SSLServer) (cert : Cert)
    (raw : List (List (String × String)))
    (subject P1 P2 : List (String × String)) (k e : String)
    (hs : cert.subject = some raw) (hraw : raw ≠ [])
    (hb : buildSubject [] raw = some subject)
    (hvf : srv.verify_fields = some (P1 ++ (k, e) :: P2))
    (hpass : ∀ p ∈ P1, fieldPasses subject p)
    (hempty : dictGet subject k = some "") :
    (srv.verify_peer cert).2 =
      Except.ok (false, some (Reason.missingField k subject)) := by
  have h2 : (srv.verify_peer cert).2 = srv.verify_peer_result cert := rfl
  rw [h2, verify_peer_result_loop srv cert raw subject _ hs hraw hb hvf,
      verify_fields_loop_skip subject P1 ((k, e) :: P2) hpass]
  simp [verify_fields_loop, hempty, pyFalsy]

/-- C10 witness: policy `{"O": "Acme"}` against a subject containing `"O"`
with the empty-string value is rejected with the missing-field reason for
`"O"`, not the mismatch reason. -/
theorem C10_falsy_value_takes_missing_branch_witness :
    ((SSLServer.mk (some [("O", "Acme")]) false).verify_peer
        (Cert.mk (some [[("O", "")]]))).2 =
      Except.ok (false, some (Reason.missingField "O" [("O", "")])) :=
  C10_falsy_value_takes_missing_branch
    (SSLServer.mk (some [("O", "Acme")]) false)
    (Cert.mk (some [[("O", "")]])) [[("O", "")]] [("O", "")]
    [] [] "O" "Acme" rfl (by decide) rfl rfl
    (fun p hp => absurd hp (List.not_mem_nil p)) (by decide)

/-- C6 counterexample: with policy `{"O": ""}` and subject `{"O": ""}` the
policy field `"O"` is present with a value equal to the expected value, yet
`verify_peer` rejects (through the missing-field branch, since the
truthiness test at line 133 treats the empty string as absent) and
`verify_request` returns `False` and closes the socket. -/
theorem C6_counterexample_empty_expected_value :
    dictGet [("O", "")] "O" = some "" ∧
    ((SSLServer.mk (some [("O", "")]) false).verify_peer
        (Cert.mk (some [[("O", "")]]))).2 =
      Except.ok (false, some (Reason.missingField "O" [("O", "")])) ∧
    ((SSLServer.mk (some [("O", "")]) false).verify_request
        (Sock.mk (some (Cert.mk (some [[("O", "")]])))) "peer1").ret
      = false ∧
    ((SSLServer.mk (some [("O", "")]) false).verify_request
        (Sock.mk (some (Cert.mk (some [[("O", "")]])))) "peer1").sockClosed
      = true :=
  ⟨rfl, rfl, rfl, rfl⟩

/-- C6 (amended): for every non-empty policy and every peer subject mapping
in which each policy field is present with a non-empty value equal to the
expected value, `verify_peer` returns accepted (`True` with no rejection
reason) and `verify_request` returns `True` without closing the socket. (The
amendment adds "non-empty": a field whose expected and received value is the
empty string is rejected through the falsy-value branch, see the
counterexample.) -/
theorem C6_all_fields_match_accepted (srv : SSLServer) (cert : Cert)
    (raw : List (List (String × String)))
    (subject P : List (String × String)) (sock : Sock) (from_addr : String)
    (hs : cert.subject = some raw) (hraw : raw ≠ [])
    (hb : buildSubject [] raw = some subject)
    (hvf : srv.verify_fields = some P) (hPne : P ≠ [])
    (hpass : ∀ p ∈ P, fieldPasses subject p)
    (hsock : sock.getpeercert = some cert) :
    (srv.verify_peer cert).2 = Except.ok (true, none) ∧
    (srv.verify_request sock from_addr).ret = true ∧
    (srv.verify_request sock from_addr).sockClosed = false := by
  have hres : srv.verify_peer_result cert = Except.ok (true, none) := by
    rw [verify_peer_result_loop srv cert raw subject P hs hraw hb hvf]
    have hskip := verify_fields_loop_skip subject P [] hpass
    rw [List.append_nil] at hskip
    rw [hskip]
    rfl
  have ht : pyTruthyFields srv.verify_fields = true := by
    rw [hvf]
    cases P with
    | nil => exact absurd rfl hPne
    | cons a t => rfl
  refine ⟨hres, ?_, ?_⟩ <;>
    simp [SSLServer.verify_request, SSLServer.verify_request_try,
      SSLServer.verify_peer, ht, hsock, hres]

/-- C6 witness: the spec's example — policy `{"O": "Acme"}`, subject
`{"O": "Acme", "CN": "host"}` — is accepted by `verify_peer`, and
`verify_request` returns `True` without closing the socket. -/
theorem C6_all_fields_match_accepted_witness :
    ((SSLServer.mk (some [("O", "Acme")]) false).verify_peer
        (Cert.mk (some [[("O", "Acme")], [("CN", "host")]]))).2 =
      Except.ok (true, none) ∧
    ((SSLServer.mk (some [("O", "Acme")]) false).verify_request
        (Sock.mk (some (Cert.mk (some [[("O", "Acme")], [("CN", "host")]]))))
        "peer1").ret = true ∧
    ((SSLServer.mk (some [("O", "Acme")]) false).verify_request
        (Sock.mk (some (Cert.mk (some [[("O", "Acme")], [("CN", "host")]]))))
        "peer1").sockClosed = false :=
  C6_all_fields_match_accepted (SSLServer.mk (some [("O", "Acme")]) false)
    (Cert.mk (some [[("O", "Acme")], [("CN", "host")]]))
    [[("O", "Acme")], [("CN", "host")]] [("O", "Acme"), ("CN", "host")]
    [("O", "Acme")]
    (Sock.mk (some (Cert.mk (some [[("O", "Acme")], [("CN", "host")]]))))
    "peer1" rfl (by decide) (by decide) rfl (by decide)
    (by decide) rfl

/-- Every rejecting call of `verify_request` closes the socket. -/
theorem verify_request_reject_closes (srv : SSLServer) (sock : Sock)
    (from_addr : String)
    (h : (srv.verify_request sock from_addr).ret = false) :
    (srv.verify_request sock from_addr).sockClosed = true := by
  rcases htry : srv.verify_request_try sock from_addr with ⟨logs, res⟩
  cases res with
  | error e => simp [SSLServer.verify_request, htry]
  | ok p =>
    rcases p with ⟨r, c⟩
    have hvr : srv.verify_request sock from_addr = ⟨r, c, logs⟩ := by
      simp [SSLServer.verify_request, htry]
    rcases verify_request_try_ok_cases srv sock from_addr logs r c htry with
      ⟨h1, h2⟩ | ⟨h1, h2⟩
    · rw [hvr, h1] at h
      exact absurd h (by simp)
    · rw [hvr, h2]

/-- C7: every exit path of `verify_request` that rejects a connection
(returns `False`) — explicit policy rejection at lines 92-94 or the
exception handler at lines 104-109 — closes the socket before returning;
consequently, after any number of consecutive rejected connection attempts,
every rejected attempt's socket has been closed. -/
theorem C7_rejection_closes_socket :
    (∀ (srv : SSLServer) (sock : Sock) (from_addr : String),
        (srv.verify_request sock from_addr).ret = false →
        (srv.verify_request sock from_addr).sockClosed = true) ∧
    (∀ (srv : SSLServer) (attempts : List (Sock × String)),
        ∀ r ∈ processAttempts srv attempts,
          r.ret = false → r.sockClosed = true) := by
  refine ⟨verify_request_reject_closes, ?_⟩
  intro srv attempts r hr hret
  rcases List.mem_map.mp hr with ⟨p, hp, rfl⟩
  exact verify_request_reject_closes srv p.1 p.2 hret

/-- C7 witness: a rejected attempt (non-empty policy, no peer certificate)
has its socket closed. -/
theorem C7_rejection_closes_socket_witness :
    ((SSLServer.mk (some [("O", "Acme")]) false).verify_request
        (Sock.mk none) "peer1").sockClosed = true :=
  C7_rejection_closes_socket.1 (SSLServer.mk (some [("O", "Acme")]) false)
    (Sock.mk none) "peer1" rfl

/-- C8: the loop of `verify_peer` stops at the first failing policy field:
if every field before `(k, e)` passes and `(k, e)` fails (absent, falsy, or
mismatched), the outcome of `verify_peer` does not depend on the policy
entries after `(k, e)` — two servers whose policies agree up to and
including `(k, e)` produce identical outcomes — and the returned reason
names exactly the field `k`. -/
theorem C8_first_failure_short_circuits (srv srv2 : SSLServer) (cert : Cert)
    (raw : List (List (String × String)))
    (subject P1 P2 P2b : List (String × String)) (k e : String)
    (hs : cert.subject = some raw) (hraw : raw ≠ [])
    (hb : buildSubject [] raw = some subject)
    (hvf : srv.verify_fields = some (P1 ++ (k, e) :: P2))
    (hvf2 : srv2.verify_fields = some (P1 ++ (k, e) :: P2b))
    (hdbg : srv2.debugEnabled = srv.debugEnabled)
    (hpass : ∀ p ∈ P1, fieldPasses subject p)
    (hfail : ¬ fieldPasses subject (k, e)) :
    srv.verify_peer cert = srv2.verify_peer cert ∧
    ∃ r : Reason, (srv.verify_peer cert).2 = Except.ok (false, some r) ∧
      reasonField r = k := by
  have key : ∀ P3 : List (String × String),
      verify_fields_loop subject ((k, e) :: P3) =
        (false, some (if pyFalsy (dictGet subject k) then
            Reason.missingField k subject
          else Reason.mismatch k e subject)) := by
    intro P3
    cases hv : dictGet subject k with
    | none => simp [verify_fields_loop, hv, pyFalsy]
    | some v =>
      by_cases hv0 : v = ""
      · subst hv0
        simp [verify_fields_loop, hv, pyFalsy]
      · have hev : e ≠ v := by
          intro hevv
          exact hfail ⟨by rw [hv, hevv], by rw [hevv]; exact hv0⟩
        have hfalsy : pyFalsy (some v) = false := by
          simpa [pyFalsy] using hv0
        simp [verify_fields_loop, hv, hfalsy, hev]
  have hres : srv.verify_peer_result cert =
      Except.ok (false, some (if pyFalsy (dictGet subject k) then
        Reason.missingField k subject
      else Reason.mismatch k e subject)) := by
    rw [verify_peer_result_loop srv cert raw subject _ hs hraw hb hvf,
        verify_fields_loop_skip subject P1 ((k, e) :: P2) hpass, key]
  have hres2 : srv2.verify_peer_result cert =
      Except.ok (false, some (if pyFalsy (dictGet subject k) then
        Reason.missingField k subject
      else Reason.mismatch k e subject)) := by
    rw [verify_peer_result_loop srv2 cert raw subject _ hs hraw hb hvf2,
        verify_fields_loop_skip subject P1 ((k, e) :: P2b) hpass, key]
  constructor
  · unfold SSLServer.verify_peer
    rw [hres, hres2, hdbg]
  · refine ⟨_, hres, ?_⟩
    by_cases hbr : pyFalsy (dictGet subject k) = true
    · simp [hbr, reasonField]
    · simp [hbr, reasonField]

/-- C8 witness: policy `{"O": "Acme"}` and policy
`{"O": "Acme", "CN": "x"}` produce the same outcome on a subject lacking
`"O"` — the trailing `("CN", "x")` entry is never evaluated — and the reason
names `"O"`. -/
theorem C8_first_failure_short_circuits_witness :
    (SSLServer.mk (some [("O", "Acme")]) false).verify_peer
        (Cert.mk (some [[("CN", "host")]])) =
      (SSLServer.mk (some [("O", "Acme"), ("CN", "x")]) false).verify_peer
        (Cert.mk (some [[("CN", "host")]])) ∧
    ∃ r : Reason,
      ((SSLServer.mk (some [("O", "Acme")]) false).verify_peer
          (Cert.mk (some [[("CN", "host")]]))).2 =
        Except.ok (false, some r) ∧
      reasonField r = "O" :=
  C8_first_failure_short_circuits (SSLServer.mk (some [("O", "Acme")]) false)
    (SSLServer.mk (some [("O", "Acme"), ("CN", "x")]) false)
    (Cert.mk (some [[("CN", "host")]])) [[("CN", "host")]] [("CN", "host")]
    [] [] [("CN", "x")] "O" "Acme" rfl (by decide) rfl rfl rfl rfl
    (fun p hp => absurd hp (List.not_mem_nil p)) (by decide)

/-- C9 counterexample: `verify_peer` is not free of I/O — with debug logging
enabled (`self.logger.isEnabledFor(logging.DEBUG)` true, lines 118-119) it
emits a debug log record of the peer certificate, so its log output is
non-empty. -/
theorem C9_counterexample_debug_log_emitted :
    ((SSLServer.mk (some [("O", "Acme")]) true).verify_peer
        (Cert.mk (some [[("O", "Acme")]]))).1 =
      [LogEvent.debugPeerCert (Cert.mk (some [[("O", "Acme")]]))] ∧
    ((SSLServer.mk (some [("O", "Acme")]) true).verify_peer
        (Cert.mk (some [[("O", "Acme")]]))).1 ≠ ([] : List LogEvent) := by
  constructor
  · rfl
  · decide

/-- C9 (amended): `verify_peer` is deterministic and its accept/reject
outcome is a function of the policy and the certificate alone — independent
of the logger's configuration — and its only I/O is the optional debug log
record of the certificate when debug logging is enabled; the error logging
and the closing of the socket remain the caller's (`verify_request`'s)
responsibility. (The amendment weakens "performs no I/O — all logging is the
caller's responsibility" to allow the debug log at lines 118-119, which the
counterexample shows is emitted by `verify_peer` itself.) -/
theorem C9_deterministic_only_debug_log (srv srv2 : SSLServer) (cert : Cert)
    (hvf : srv2.verify_fields = srv.verify_fields) :
    (srv.verify_peer cert).2 = (srv2.verify_peer cert).2 ∧
    (srv.verify_peer cert).1 =
      (if srv.debugEnabled then [LogEvent.debugPeerCert cert] else []) := by
  constructor
  · show srv.verify_peer_result cert = srv2.verify_peer_result cert
    unfold SSLServer.verify_peer_result
    rw [hvf]
  · rfl

/-- C9 witness: two servers with the same policy but different logger
configurations produce the same verification outcome, and the log output of
the debug-enabled one is exactly the debug record. -/
theorem C9_deterministic_only_debug_log_witness :
    ((SSLServer.mk (some [("O", "Acme")]) true).verify_peer
        (Cert.mk (some [[("O", "Acme")]]))).2 =
      ((SSLServer.mk (some [("O", "Acme")]) false).verify_peer
        (Cert.mk (some [[("O", "Acme")]]))).2 ∧
    ((SSLServer.mk (some [("O", "Acme")]) true).verify_peer
        (Cert.mk (some [[("O", "Acme")]]))).1 =
      (if (true : Bool) then
        [LogEvent.debugPeerCert (Cert.mk (some [[("O", "Acme")]]))]
      else []) :=
  C9_deterministic_only_debug_log
    (SSLServer.mk (some [("O", "Acme")]) true)
    (SSLServer.mk (some [("O", "Acme")]) false)
    (Cert.mk (some [[("O", "Acme")]])) rfl

end SpringPython
